import Mathlib

/-!
Shallow embedding of the LANGCHAIN_CUSTOM_CHATBOT repository
(src/src/config.py, src/src/memory_manager.py, src/src/chatbot.py).

Text is modelled as `List Char` (one entry per Unicode code point, matching
Python `len`/indexing semantics).  The external LLM and the external
summarizer are modelled as oracle parameters, as the design treats them as
external collaborators: the LLM as a function of the current context window
and the new input that either returns a reply or fails with an exception
text, the summarizer as `summarize : digest → new_text → digest`.

Library semantics embedded together with the repository code (the repo
manipulates these objects directly):
* `langchain.memory.ConversationBufferWindowMemory` keeps every message in
  `chat_memory.messages` (a plain in-memory list, appended to by
  `chat_memory.add_message`, emptied by `clear`); the window parameter
  `k` is applied only when reading: `load_memory_variables` returns the
  last `2*k` messages.  No message is ever removed from
  `chat_memory.messages` except by `clear`.
* `langchain.memory.ConversationSummaryMemory.save_context` appends the
  input/output pair to its own `chat_memory` and folds the new text into
  its running summary buffer; `load_memory_variables` returns the buffer;
  `clear` empties both.
* `langchain.chains.ConversationChain` is constructed with the manager's
  buffer-window memory (`chatbot.py` line 41); every successful `predict`
  ends with `Chain.prep_outputs`, which calls `memory.save_context` on
  that same memory, appending the raw (unvalidated, unsanitized) human
  input and AI reply to `chat_memory.messages`.  When the LLM call
  raises, `Chain.invoke` re-raises before `prep_outputs`, so nothing is
  written back on the failure path.
-/

set_option maxRecDepth 100000

namespace Chatbot

/-- Text is a list of characters, as Python strings are sequences of code points. -/
abbrev Str := List Char

/-- Converts a Lean string literal to the character-list model of Python text. -/
def chars (s : String) : Str := s.data

/-- Python ASCII whitespace, the characters removed by `str.strip()` and
used as separators by `str.split()`. -/
def isPyWs (c : Char) : Bool :=
  c == ' ' || c == '\t' || c == '\n' || c == '\r' || c == '\x0b' || c == '\x0c'

/-- Python `str.strip()`: removes leading and trailing whitespace. -/
def pyStrip (s : Str) : Str :=
  ((s.dropWhile isPyWs).reverse.dropWhile isPyWs).reverse

/-- Python `str.lower()` (code-point-wise lowercasing; the denylist is ASCII). -/
def pyLower (s : Str) : Str := s.map Char.toLower

/-- Python `pattern in text`: substring containment. -/
def isSubstrOf (pat : Str) : Str → Bool
  | [] => pat.isEmpty
  | c :: rest => pat.isPrefixOf (c :: rest) || isSubstrOf pat rest

/-- Helper for `wordCount`: counts words, tracking whether the previous
character was inside a word. -/
def wordCountAux : Bool → Str → Nat
  | _, [] => 0
  | inWord, c :: rest =>
    if isPyWs c then wordCountAux false rest
    else (if inWord then 0 else 1) + wordCountAux true rest

/-- Python `len(s.split())`: number of maximal runs of non-whitespace. -/
def wordCount (s : Str) : Nat := wordCountAux false s

/-! ## config.py -/

/-- Default of `SecurityConfig.MAX_INPUT_LENGTH` (`config.py` line 18,
env default "1000").  Operations below take the configured maximum as an
explicit parameter `MAX`; this constant is the default value. -/
def MAX_INPUT_LENGTH : Nat := 1000

/-- Embeds `SecurityConfig.validate_input_length` (`config.py` lines 26-29):
`len(text) <= MAX_INPUT_LENGTH`. -/
def validate_input_length (MAX : Nat) (text : Str) : Bool :=
  decide (text.length ≤ MAX)

/-! ## memory_manager.py : data model -/

/-- Message author: `HumanMessage` vs `AIMessage` in the source. -/
inductive Role where
  | human
  | ai
deriving DecidableEq, Repr

/-- One stored message object (a `BaseMessage` with its content). -/
structure Msg where
  role : Role
  content : Str
deriving DecidableEq, Repr

/-- Embeds `conversation_metadata` (`memory_manager.py` lines 44-48).
Time is modelled by a `Nat` tick standing for `datetime.now()`. -/
structure Metadata where
  start_time : Nat
  message_count : Nat
  total_tokens : Nat
deriving DecidableEq, Repr

/-- State of a `SecureMemoryManager`:
`messages` is `memory.chat_memory.messages` (append-only; the window
parameter `k=10` affects reads only), `summaryMessages` is
`summary_memory.chat_memory.messages`, and `summaryBuffer` the summary
memory's running digest. -/
structure MemoryState where
  messages : List Msg
  summaryMessages : List Msg
  summaryBuffer : Str
  metadata : Metadata
deriving DecidableEq, Repr

/-- Embeds `SecureMemoryManager.__init__` (`memory_manager.py` lines 24-48):
empty buffers, metadata with the construction time and zeroed counters. -/
def initState (now : Nat) : MemoryState :=
  { messages := []
    summaryMessages := []
    summaryBuffer := []
    metadata := { start_time := now, message_count := 0, total_tokens := 0 } }

/-- Window parameter of `ConversationBufferWindowMemory` (`k=10`,
`memory_manager.py` line 27): number of exchanges retained in the read view. -/
def WINDOW_K : Nat := 10

/-! ## memory_manager.py : operations -/

/-- Embeds `SecureMemoryManager._sanitize_message`
(`memory_manager.py` lines 178-195): strip, then truncate to `MAX` if
still longer. -/
def sanitize_message (MAX : Nat) (message : Str) : Str :=
  let sanitized := pyStrip message
  if MAX < sanitized.length then sanitized.take MAX else sanitized

/-- Embeds `SecureMemoryManager.add_message`
(`memory_manager.py` lines 50-88).  Returns the Python return value and
the successor state: on a failed length check nothing changes and the
result is `false`; otherwise the sanitized message is appended to
`chat_memory.messages`, `message_count` grows by one and `total_tokens`
by the whitespace-word count of the sanitized content. -/
def add_message (MAX : Nat) (s : MemoryState) (message : Str)
    (is_human : Bool) : Bool × MemoryState :=
  if validate_input_length MAX message then
    let sanitized := sanitize_message MAX message
    let msgObj : Msg :=
      { role := if is_human then Role.human else Role.ai, content := sanitized }
    (true,
      { s with
        messages := s.messages ++ [msgObj]
        metadata :=
          { s.metadata with
            message_count := s.metadata.message_count + 1
            total_tokens := s.metadata.total_tokens + wordCount sanitized } })
  else
    (false, s)

/-- Embeds the read view `SecureMemoryManager.get_memory_variables`
(`memory_manager.py` lines 90-101): `ConversationBufferWindowMemory`
returns the last `2*k` stored messages as context. -/
def windowView (s : MemoryState) : List Msg :=
  s.messages.drop (s.messages.length - 2 * WINDOW_K)

/-- Contents of the human-authored messages currently stored, in order
(the messages `isinstance(message, HumanMessage)` selects). -/
def humanContents (s : MemoryState) : List Str :=
  (s.messages.filter (fun m => m.role == Role.human)).map (fun m => m.content)

/-- Placeholder returned by `get_conversation_summary` on an empty history
(`memory_manager.py` line 115). -/
def emptyHistoryText : Str := chars "No conversation history available."

/-- One `summary_memory.save_context({"input": content}, {"output": ""})`
call: appends the input (and the empty output) to the summary memory's
`chat_memory` and folds the new content into its running buffer. -/
def absorbHuman (summarize : Str → Str → Str) (st : MemoryState)
    (content : Str) : MemoryState :=
  { st with
    summaryMessages := st.summaryMessages ++
      [{ role := Role.human, content := content },
       { role := Role.ai, content := [] }]
    summaryBuffer := summarize st.summaryBuffer content }

/-- Embeds `SecureMemoryManager.get_conversation_summary`
(`memory_manager.py` lines 103-131), with the external summarizer as the
oracle `summarize`.  If no messages are stored, returns the placeholder.
Otherwise every human message currently stored is saved into the (never
reset) summary memory and the resulting buffer is returned. -/
def get_conversation_summary (summarize : Str → Str → Str)
    (s : MemoryState) : Str × MemoryState :=
  if s.messages.isEmpty then
    (emptyHistoryText, s)
  else
    let s' := (humanContents s).foldl (absorbHuman summarize) s
    (s'.summaryBuffer, s')

/-- Embeds `SecureMemoryManager.clear_memory`
(`memory_manager.py` lines 133-156): empties both memories, resets the
metadata to the current time with zeroed counters, returns `True`. -/
def clear_memory (s : MemoryState) (now : Nat) : Bool × MemoryState :=
  let _ := s
  (true,
    { messages := []
      summaryMessages := []
      summaryBuffer := []
      metadata := { start_time := now, message_count := 0, total_tokens := 0 } })

/-- Result of `SecureMemoryManager.get_memory_stats`. -/
structure Stats where
  total_messages : Nat
  conversation_metadata : Metadata
  window_size : Nat
  has_summary : Bool
deriving DecidableEq, Repr

/-- Embeds `SecureMemoryManager.get_memory_stats`
(`memory_manager.py` lines 158-176): `total_messages` is the length of
`memory.chat_memory.messages`, `window_size` the literal `10`,
`has_summary` whether the summary memory holds any message. -/
def get_memory_stats (s : MemoryState) : Stats :=
  { total_messages := s.messages.length
    conversation_metadata := s.metadata
    window_size := 10
    has_summary := decide (0 < s.summaryMessages.length) }

/-- One entry of the export snapshot: tag (`"human"` or `"ai"`), content,
and the export-time timestamp. -/
structure ExportedMsg where
  type : Str
  content : Str
  timestamp : Nat
deriving DecidableEq, Repr

/-- Export snapshot produced by `export_memory`. -/
structure ExportData where
  messages : List ExportedMsg
  metadata : Metadata
  summary : Str
deriving DecidableEq, Repr

/-- Embeds `SecureMemoryManager.export_memory`
(`memory_manager.py` lines 197-222): snapshots every stored message with
a tag derived from its class and a timestamp taken at export time (`now`),
plus the metadata and the (state-mutating) conversation summary. -/
def export_memory (summarize : Str → Str → Str) (s : MemoryState)
    (now : Nat) : ExportData × MemoryState :=
  let exported := s.messages.map (fun m =>
    { type := if m.role == Role.human then chars "human" else chars "ai"
      content := m.content
      timestamp := now : ExportedMsg })
  let summaryResult := get_conversation_summary summarize s
  ({ messages := exported, metadata := s.metadata, summary := summaryResult.1 },
    summaryResult.2)

/-! ## chatbot.py -/

/-- Denylist of `CustomChatbot._validate_input`
(`chatbot.py` lines 207-210). -/
def dangerous_patterns : List Str :=
  [chars "script", chars "javascript:", chars "data:", chars "vbscript:",
   chars "<script", chars "</script>", chars "onload=", chars "onerror="]

/-- Embeds `CustomChatbot._validate_input` (`chatbot.py` lines 185-222):
length check, non-empty-after-strip check, then the case-insensitive
denylist scan. -/
def validate_input (MAX : Nat) (user_input : Str) : Bool :=
  if !validate_input_length MAX user_input then
    false
  else if (pyStrip user_input).isEmpty then
    false
  else
    let input_lower := pyLower user_input
    !(dangerous_patterns.any (fun pat => isSubstrOf pat input_lower))

/-- Result dictionary returned by `CustomChatbot.chat`. -/
structure ChatResult where
  response : Str
  success : Bool
  error : Option Str
  memory_stats : Option Stats
  conversation_summary : Option Str
deriving DecidableEq, Repr

/-- Fixed reply of `chat` on failed validation (`chatbot.py` line 76). -/
def invalidInputResponse : Str :=
  chars "I\x27m sorry, but your input doesn\x27t meet our security requirements. Please try a shorter message."

/-- Fixed reply of `chat` on a failed memory write (`chatbot.py` line 84). -/
def memoryFailResponse : Str :=
  chars "I\x27m sorry, but I couldn\x27t process your message. Please try again."

/-- Fixed reply of `chat` when an exception is caught (`chatbot.py` line 108). -/
def internalErrorResponse : Str :=
  chars "I\x27m sorry, but I encountered an error. Please try again."

/-- Type of the external LLM collaborator behind
`conversation_chain.predict`: from the retained context window and the new
input it produces either a reply or an exception text. -/
abbrev LLM := List Msg → Str → Except Str Str

/-- Memory write-back performed by `conversation_chain.predict`
(`chatbot.py` line 90) on every successful run: LangChain's
`Chain.prep_outputs` calls `memory.save_context` on the chatbot's own
buffer-window memory, appending the raw human input and the raw AI reply
to the same `chat_memory.messages` that the manager reads — with no
length check and no sanitization.  The repo's metadata counters are not
touched by this path. -/
def chainWriteBack (st : MemoryState) (user_input response : Str) :
    MemoryState :=
  { st with
    messages := st.messages ++
      [{ role := Role.human, content := user_input },
       { role := Role.ai, content := response }] }

/-- Embeds `CustomChatbot.chat` (`chatbot.py` lines 62-111).
Steps: validate (early return, no mutation); add the human message (early
return on failure); call the external LLM on the retained window (a raised
exception propagates out of `Chain.invoke` before any write-back and is
caught by the surrounding `except`, which returns the generic apology with
the exception text in the `error` field — the human message already added
stays); on LLM success the chain writes the raw input/reply pair back into
the same memory (`chainWriteBack`); add the sanitized AI reply ignoring
its result; collect stats and the (state-mutating) conversation summary. -/
def chat (MAX : Nat) (summarize : Str → Str → Str) (llm : LLM)
    (s : MemoryState) (user_input : Str) : ChatResult × MemoryState :=
  if !validate_input MAX user_input then
    ({ response := invalidInputResponse, success := false
       error := some (chars "Input validation failed")
       memory_stats := none, conversation_summary := none }, s)
  else
    let added := add_message MAX s user_input true
    if !added.1 then
      ({ response := memoryFailResponse, success := false
         error := some (chars "Failed to add message to memory")
         memory_stats := none, conversation_summary := none }, added.2)
    else
      match llm (windowView added.2) user_input with
      | Except.error e =>
        ({ response := internalErrorResponse, success := false
           error := some e
           memory_stats := none, conversation_summary := none }, added.2)
      | Except.ok response =>
        let s1 := chainWriteBack added.2 user_input response
        let s2 := (add_message MAX s1 response false).2
        let stats := get_memory_stats s2
        let summaryResult := get_conversation_summary summarize s2
        ({ response := response, success := true, error := none
           memory_stats := some stats
           conversation_summary := some summaryResult.1 }, summaryResult.2)

/-- Runs a sequence of `chat` calls, threading the state. -/
def chats (MAX : Nat) (summarize : Str → Str → Str) (llm : LLM)
    (s : MemoryState) (inputs : List Str) : MemoryState :=
  inputs.foldl (fun st inp => (chat MAX summarize llm st inp).2) s

/-! ## Helper lemmas -/

/-- Stripping whitespace never lengthens a text. -/
theorem pyStrip_length_le (s : Str) : (pyStrip s).length ≤ s.length := by
  unfold pyStrip
  rw [List.length_reverse]
  calc ((s.dropWhile isPyWs).reverse.dropWhile isPyWs).length
      ≤ (s.dropWhile isPyWs).reverse.length :=
        (List.dropWhile_suffix isPyWs).sublist.length_le
    _ = (s.dropWhile isPyWs).length := List.length_reverse _
    _ ≤ s.length := (List.dropWhile_suffix isPyWs).sublist.length_le

/-- Within the configured maximum, sanitization is exactly stripping:
the defensive truncation branch never fires. -/
theorem sanitize_message_of_le (MAX : Nat) (m : Str) (h : m.length ≤ MAX) :
    sanitize_message MAX m = pyStrip m := by
  have hle := pyStrip_length_le m
  unfold sanitize_message
  have hnot : ¬ MAX < (pyStrip m).length := by omega
  simp [hnot]

/-- Characterization of a failing validation, mirroring the three checks of
`_validate_input` in order. -/
theorem validate_input_false_iff (MAX : Nat) (u : Str) :
    validate_input MAX u = false ↔
      MAX < u.length ∨ pyStrip u = [] ∨
        ∃ p ∈ dangerous_patterns, isSubstrOf p (pyLower u) = true := by
  unfold validate_input
  by_cases h1 : u.length ≤ MAX
  · by_cases h2 : pyStrip u = []
    · simp [validate_input_length, h1, h2]
    · simp [validate_input_length, h1, h2, List.isEmpty_iff, List.any_eq_true]
  · simp [validate_input_length, h1]
    omega

/-- Passing validation bounds the input length. -/
theorem validate_input_true_length (MAX : Nat) (u : Str)
    (h : validate_input MAX u = true) : u.length ≤ MAX := by
  by_contra hc
  have : validate_input MAX u = false :=
    (validate_input_false_iff MAX u).mpr (Or.inl (by omega))
  simp [this] at h

/-- Effect of a successful `add_message`: the sanitized message is appended
and the two counters advance. -/
theorem add_message_ok (MAX : Nat) (s : MemoryState) (m : Str) (ih : Bool)
    (h : m.length ≤ MAX) :
    add_message MAX s m ih =
      (true,
        { s with
          messages := s.messages ++
            [{ role := if ih then Role.human else Role.ai
               content := pyStrip m }]
          metadata :=
            { s.metadata with
              message_count := s.metadata.message_count + 1
              total_tokens := s.metadata.total_tokens + wordCount (pyStrip m) } }) := by
  unfold add_message
  simp [validate_input_length, h, sanitize_message_of_le MAX m h]

/-- Effect of a rejected `add_message`: the state is untouched. -/
theorem add_message_fail (MAX : Nat) (s : MemoryState) (m : Str) (ih : Bool)
    (h : MAX < m.length) :
    add_message MAX s m ih = (false, s) := by
  unfold add_message
  have : ¬ m.length ≤ MAX := by omega
  simp [validate_input_length, this]

/-- Absorbing texts into the summary memory never touches the stored
conversation messages. -/
theorem absorbFold_messages (z : Str → Str → Str) (l : List Str)
    (st : MemoryState) :
    (l.foldl (absorbHuman z) st).messages = st.messages := by
  induction l generalizing st with
  | nil => rfl
  | cons c rest ih => rw [List.foldl_cons, ih]; rfl

/-- Absorbing texts into the summary memory never touches the metadata. -/
theorem absorbFold_metadata (z : Str → Str → Str) (l : List Str)
    (st : MemoryState) :
    (l.foldl (absorbHuman z) st).metadata = st.metadata := by
  induction l generalizing st with
  | nil => rfl
  | cons c rest ih => rw [List.foldl_cons, ih]; rfl

/-- The summary buffer after absorbing a list of texts is the fold of the
summarizer over them, seeded with the previous buffer. -/
theorem absorbFold_buffer (z : Str → Str → Str) (l : List Str)
    (st : MemoryState) :
    (l.foldl (absorbHuman z) st).summaryBuffer = l.foldl z st.summaryBuffer := by
  induction l generalizing st with
  | nil => rfl
  | cons c rest ih => rw [List.foldl_cons, List.foldl_cons, ih]; rfl

/-- Computing the conversation summary leaves the stored messages alone. -/
theorem summary_messages (z : Str → Str → Str) (s : MemoryState) :
    (get_conversation_summary z s).2.messages = s.messages := by
  unfold get_conversation_summary
  by_cases h : s.messages.isEmpty
  · simp [h]
  · simp [h, absorbFold_messages]

/-- Computing the conversation summary leaves the metadata alone. -/
theorem summary_metadata (z : Str → Str → Str) (s : MemoryState) :
    (get_conversation_summary z s).2.metadata = s.metadata := by
  unfold get_conversation_summary
  by_cases h : s.messages.isEmpty
  · simp [h]
  · simp [h, absorbFold_metadata]

/-- Digest of a nonempty history: the summarizer folded over the human
contents, seeded with the persistent buffer. -/
theorem summary_digest (z : Str → Str → Str) (s : MemoryState)
    (h : s.messages ≠ []) :
    (get_conversation_summary z s).1 =
      (humanContents s).foldl z s.summaryBuffer := by
  unfold get_conversation_summary
  have h' : s.messages.isEmpty = false := by
    simpa [List.isEmpty_iff] using h
  simp [h', absorbFold_buffer]

/-- Buffer state after computing the summary of a nonempty history. -/
theorem summary_buffer_after (z : Str → Str → Str) (s : MemoryState)
    (h : s.messages ≠ []) :
    (get_conversation_summary z s).2.summaryBuffer =
      (humanContents s).foldl z s.summaryBuffer := by
  unfold get_conversation_summary
  have h' : s.messages.isEmpty = false := by
    simpa [List.isEmpty_iff] using h
  simp [h', absorbFold_buffer]

/-- Effect of a fully successful `chat` call on the stored messages and
counters: the sanitized human input, the chain's raw write-back pair, and
the sanitized reply are appended — four stored messages with the role
pattern human, human, ai, ai — while `message_count` grows by two (only
the manager's own appends count), and the call reports success. -/
theorem chat_ok_state (MAX : Nat) (z : Str → Str → Str) (llm : LLM)
    (s : MemoryState) (u r : Str)
    (hv : validate_input MAX u = true)
    (hr : llm (windowView (add_message MAX s u true).2) u = Except.ok r)
    (hlen : r.length ≤ MAX) :
    (chat MAX z llm s u).2.messages =
        s.messages ++ [{ role := Role.human, content := pyStrip u },
                       { role := Role.human, content := u },
                       { role := Role.ai, content := r },
                       { role := Role.ai, content := pyStrip r }]
    ∧ (chat MAX z llm s u).2.metadata.message_count =
        s.metadata.message_count + 2
    ∧ (chat MAX z llm s u).1.success = true := by
  have hu : u.length ≤ MAX := validate_input_true_length MAX u hv
  have hadd := add_message_ok MAX s u true hu
  rw [hadd] at hr
  simp only at hr
  have hadd2 := fun st => add_message_ok MAX st r false hlen
  unfold chat
  simp only [hv, Bool.not_true, Bool.false_eq_true, if_false, hadd, hr,
    chainWriteBack, hadd2]
  simp [summary_messages, summary_metadata, List.append_assoc]

/-- Flips the expected author. -/
def otherRole : Role → Role
  | Role.human => Role.ai
  | Role.ai => Role.human

/-- Helper for `rolesAlternate`: checks the next expected author. -/
def altAux : Role → List Msg → Bool
  | _, [] => true
  | expected, m :: rest => m.role == expected && altAux (otherRole expected) rest

/-- The stored messages alternate human/assistant starting with a human turn. -/
def rolesAlternate (l : List Msg) : Bool := altAux Role.human l

/-- The stored messages are a concatenation of complete four-message
groups with the role pattern human, human, ai, ai — the shape every fully
successful `chat` call appends (sanitized human, raw human, raw assistant,
sanitized assistant). -/
def isQuads : List Msg → Bool
  | h1 :: h2 :: a1 :: a2 :: rest =>
    h1.role == Role.human && h2.role == Role.human &&
      a1.role == Role.ai && a2.role == Role.ai && isQuads rest
  | [] => true
  | _ => false

/-- Appending one human,human,ai,ai group preserves the quad shape. -/
theorem isQuads_append_quad : ∀ (l : List Msg) (h1 h2 a1 a2 : Msg),
    isQuads l = true → h1.role = Role.human → h2.role = Role.human →
    a1.role = Role.ai → a2.role = Role.ai →
    isQuads (l ++ [h1, h2, a1, a2]) = true
  | [], h1, h2, a1, a2, _, hh1, hh2, ha1, ha2 => by
    simp [isQuads, hh1, hh2, ha1, ha2]
  | [_], _, _, _, _, hp, _, _, _, _ => by simp [isQuads] at hp
  | [_, _], _, _, _, _, hp, _, _, _, _ => by simp [isQuads] at hp
  | [_, _, _], _, _, _, _, hp, _, _, _, _ => by simp [isQuads] at hp
  | m1 :: m2 :: m3 :: m4 :: rest, h1, h2, a1, a2, hp, hh1, hh2, ha1, ha2 => by
    simp only [isQuads, Bool.and_eq_true] at hp
    simp only [List.cons_append, isQuads, Bool.and_eq_true]
    exact ⟨hp.1, isQuads_append_quad rest h1 h2 a1 a2 hp.2 hh1 hh2 ha1 ha2⟩

/-- A nonempty quad-shaped message list does not alternate
human/assistant: its second message is human where alternation expects an
assistant turn. -/
theorem rolesAlternate_of_isQuads_ne : ∀ (l : List Msg),
    isQuads l = true → l ≠ [] → rolesAlternate l = false
  | [], _, hne => absurd rfl hne
  | [_], hp, _ => by simp [isQuads] at hp
  | [_, _], hp, _ => by simp [isQuads] at hp
  | [_, _, _], hp, _ => by simp [isQuads] at hp
  | m1 :: m2 :: m3 :: m4 :: rest, hp, _ => by
    simp only [isQuads, Bool.and_eq_true] at hp
    have h2 : m2.role = Role.human := by
      have := hp.1.1.1.2
      simpa using this
    simp [rolesAlternate, altAux, otherRole, h2]

/-- The read window is the suffix of the last `2*k` stored messages. -/
theorem windowView_length (s : MemoryState) :
    (windowView s).length = min s.messages.length (2 * WINDOW_K) := by
  unfold windowView
  rw [List.length_drop]
  omega

/-- The read window is a suffix of the stored messages (most recent turns,
insertion order preserved). -/
theorem windowView_suffix (s : MemoryState) : windowView s <:+ s.messages :=
  List.drop_suffix _ _

/-- Cumulative effect of a run of `chat` calls whose inputs all validate
and whose replies all fit the length limit: each call stores exactly four
messages (sanitized human, the chain's raw human/assistant write-back
pair, sanitized assistant) while `message_count` advances by only two. -/
theorem chats_grow (MAX : Nat) (z : Str → Str → Str) (llm : LLM) :
    ∀ (inputs : List Str) (s : MemoryState),
    (∀ u ∈ inputs, validate_input MAX u = true) →
    (∀ w u, ∃ r, llm w u = Except.ok r ∧ r.length ≤ MAX) →
    (chats MAX z llm s inputs).messages.length =
        s.messages.length + 4 * inputs.length
    ∧ (chats MAX z llm s inputs).metadata.message_count =
        s.metadata.message_count + 2 * inputs.length
  | [], s, _, _ => by simp [chats]
  | u :: rest, s, hv, hr => by
    obtain ⟨r, hru, hrl⟩ := hr (windowView (add_message MAX s u true).2) u
    have hvu : validate_input MAX u = true := hv u (List.mem_cons_self u rest)
    have h1 := chat_ok_state MAX z llm s u r hvu hru hrl
    have hrest : ∀ x ∈ rest, validate_input MAX x = true :=
      fun x hx => hv x (List.mem_cons_of_mem u hx)
    have ih := chats_grow MAX z llm rest (chat MAX z llm s u).2 hrest hr
    have hstep : chats MAX z llm s (u :: rest) =
        chats MAX z llm (chat MAX z llm s u).2 rest := rfl
    rw [hstep]
    constructor
    · rw [ih.1, h1.1]
      simp [List.length_append]
      omega
    · rw [ih.2, h1.2.1]
      simp
      omega

/-- A run of `chat` calls with validating inputs and fitting replies
preserves the human,human,ai,ai quad shape of the stored messages. -/
theorem chats_quads (MAX : Nat) (z : Str → Str → Str) (llm : LLM) :
    ∀ (inputs : List Str) (s : MemoryState),
    (∀ u ∈ inputs, validate_input MAX u = true) →
    (∀ w u, ∃ r, llm w u = Except.ok r ∧ r.length ≤ MAX) →
    isQuads s.messages = true →
    isQuads (chats MAX z llm s inputs).messages = true
  | [], s, _, _, hp => hp
  | u :: rest, s, hv, hr, hp => by
    obtain ⟨r, hru, hrl⟩ := hr (windowView (add_message MAX s u true).2) u
    have hvu : validate_input MAX u = true := hv u (List.mem_cons_self u rest)
    have h1 := chat_ok_state MAX z llm s u r hvu hru hrl
    have hrest : ∀ x ∈ rest, validate_input MAX x = true :=
      fun x hx => hv x (List.mem_cons_of_mem u hx)
    have hp' : isQuads (chat MAX z llm s u).2.messages = true := by
      rw [h1.1]
      exact isQuads_append_quad s.messages _ _ _ _ hp rfl rfl rfl rfl
    exact chats_quads MAX z llm rest (chat MAX z llm s u).2 hrest hr hp'

/-! ## Concrete oracles and runs used in witnesses and counterexamples -/

/-- Concatenating summarizer oracle, used for concrete evaluations. -/
def appendSummarizer : Str → Str → Str := fun d t => d ++ t

/-- LLM oracle that always replies with the short text "ok". -/
def okLLM : LLM := fun _ _ => Except.ok (chars "ok")

/-- LLM oracle that always raises an exception with text "boom". -/
def boomLLM : LLM := fun _ _ => Except.error (chars "boom")

/-- Reply of 1001 characters, one longer than the default maximum. -/
def longReply : Str := List.replicate 1001 'b'

/-- LLM oracle whose reply to the input "a" is 1001 characters long and
otherwise replies "ok". -/
def verboseLLM : LLM := fun _ inp =>
  Except.ok (if inp == chars "a" then longReply else chars "ok")

/-- State of a fresh session after one accepted human message "hi". -/
def chatOnceState : MemoryState :=
  (add_message 1000 (initState 0) (chars "hi") true).2

/-- State of a fresh session after six successful chats. -/
def sixChatState : MemoryState :=
  chats 1000 appendSummarizer okLLM (initState 0) (List.replicate 6 (chars "hi"))

/-- State of a fresh session after one fully successful chat. -/
def oneChatState : MemoryState :=
  chats 1000 appendSummarizer okLLM (initState 0) [chars "hi"]

/-- Result and state of one chat on a fresh session whose assistant reply
has 1001 characters. -/
def longReplyRun : ChatResult × MemoryState :=
  chat 1000 appendSummarizer verboseLLM (initState 0) (chars "a")

/-! ## Claim theorems -/

/-- C3: input validation is a pure function (a Lean function of the input
and the static maximum) returning `false` exactly when the input is longer
than the configured maximum (default `MAX_INPUT_LENGTH = 1000`), strips to
empty (empty or whitespace-only), or its lowercasing contains one of the
eight fixed denylisted substrings. -/
theorem C3_validate_input_characterization :
    MAX_INPUT_LENGTH = 1000 ∧
    ∀ (MAX : Nat) (u : Str),
      validate_input MAX u = false ↔
        MAX < u.length ∨ pyStrip u = [] ∨
          ∃ p ∈ dangerous_patterns, isSubstrOf p (pyLower u) = true :=
  ⟨rfl, validate_input_false_iff⟩

/-- C2: an input that is longer than the maximum or contains a denylisted
substring (case-insensitively) makes `chat` return `success = false` with
the invalid-input error, and the memory state — in particular
`total_messages` — is unchanged. -/
theorem C2_invalid_input_no_mutation (MAX : Nat) (z : Str → Str → Str)
    (llm : LLM) (s : MemoryState) (u : Str)
    (h : MAX < u.length ∨
      ∃ p ∈ dangerous_patterns, isSubstrOf p (pyLower u) = true) :
    (chat MAX z llm s u).1.success = false
    ∧ (chat MAX z llm s u).1.error = some (chars "Input validation failed")
    ∧ (chat MAX z llm s u).2 = s
    ∧ (get_memory_stats (chat MAX z llm s u).2).total_messages =
        (get_memory_stats s).total_messages := by
  have hf : validate_input MAX u = false :=
    (validate_input_false_iff MAX u).mpr (by tauto)
  unfold chat
  simp [hf]

/-- C2 witness: a denylisted input on a fresh session. -/
theorem C2_invalid_input_no_mutation_witness :
    (1000 < (chars "javascript:alert(1)").length ∨
      ∃ p ∈ dangerous_patterns,
        isSubstrOf p (pyLower (chars "javascript:alert(1)")) = true)
    ∧ ((chat 1000 appendSummarizer okLLM (initState 0)
          (chars "javascript:alert(1)")).1.success = false
       ∧ (chat 1000 appendSummarizer okLLM (initState 0)
            (chars "javascript:alert(1)")).1.error =
           some (chars "Input validation failed")
       ∧ (chat 1000 appendSummarizer okLLM (initState 0)
            (chars "javascript:alert(1)")).2 = initState 0
       ∧ (get_memory_stats (chat 1000 appendSummarizer okLLM (initState 0)
            (chars "javascript:alert(1)")).2).total_messages =
           (get_memory_stats (initState 0)).total_messages) :=
  ⟨by decide,
   C2_invalid_input_no_mutation 1000 appendSummarizer okLLM (initState 0)
     (chars "javascript:alert(1)") (by decide)⟩

/-- C10: a message accepted by `add_message` is stored with its content
stripped of leading and trailing whitespace (the defensive truncation never
fires for an accepted message, since stripping cannot lengthen),
`message_count` grows by exactly one and `total_tokens` by exactly the
whitespace-word count of the sanitized content. -/
theorem C10_add_message_effect (MAX : Nat) (s : MemoryState) (m : Str)
    (is_human : Bool) (h : m.length ≤ MAX) :
    add_message MAX s m is_human =
      (true,
        { s with
          messages := s.messages ++
            [{ role := if is_human then Role.human else Role.ai
               content := pyStrip m }]
          metadata :=
            { s.metadata with
              message_count := s.metadata.message_count + 1
              total_tokens := s.metadata.total_tokens + wordCount (pyStrip m) } }) :=
  add_message_ok MAX s m is_human h

/-- C10 witness: a padded two-word message on a fresh session. -/
theorem C10_add_message_effect_witness :
    (chars "  hi there  ").length ≤ 1000
    ∧ add_message 1000 (initState 0) (chars "  hi there  ") true =
        (true,
          { messages := [{ role := Role.human, content := chars "hi there" }]
            summaryMessages := []
            summaryBuffer := []
            metadata := { start_time := 0, message_count := 1, total_tokens := 2 } }) :=
  ⟨by decide,
   (C10_add_message_effect 1000 (initState 0) (chars "  hi there  ") true
      (by decide)).trans (by decide)⟩

/-- C4: `clear_memory` returns `True`, empties the window, the summary
memory and its digest, zeroes both counters (so `stats` reports
`total_messages = 0` and `message_count = 0`), takes the fresh clock value
as the new `start_time` (strictly later than the previous one whenever the
clock advanced), and clearing the already-cleared state with the same
clock value is idempotent. -/
theorem C4_clear_memory_resets (s : MemoryState) (now : Nat)
    (h : s.metadata.start_time < now) :
    (clear_memory s now).1 = true
    ∧ (clear_memory s now).2.messages = []
    ∧ (clear_memory s now).2.summaryMessages = []
    ∧ (clear_memory s now).2.summaryBuffer = []
    ∧ (get_memory_stats (clear_memory s now).2).total_messages = 0
    ∧ (clear_memory s now).2.metadata.message_count = 0
    ∧ (clear_memory s now).2.metadata.total_tokens = 0
    ∧ s.metadata.start_time < (clear_memory s now).2.metadata.start_time
    ∧ clear_memory (clear_memory s now).2 now = clear_memory s now :=
  ⟨rfl, rfl, rfl, rfl, rfl, rfl, rfl, h, rfl⟩

/-- C4 witness: clearing a fresh session at a later clock tick. -/
theorem C4_clear_memory_resets_witness :
    (initState 0).metadata.start_time < 1
    ∧ ((clear_memory (initState 0) 1).1 = true
       ∧ (clear_memory (initState 0) 1).2.messages = []
       ∧ (clear_memory (initState 0) 1).2.summaryMessages = []
       ∧ (clear_memory (initState 0) 1).2.summaryBuffer = []
       ∧ (get_memory_stats (clear_memory (initState 0) 1).2).total_messages = 0
       ∧ (clear_memory (initState 0) 1).2.metadata.message_count = 0
       ∧ (clear_memory (initState 0) 1).2.metadata.total_tokens = 0
       ∧ (initState 0).metadata.start_time <
           (clear_memory (initState 0) 1).2.metadata.start_time
       ∧ clear_memory (clear_memory (initState 0) 1).2 1 =
           clear_memory (initState 0) 1) :=
  ⟨by decide, C4_clear_memory_resets (initState 0) 1 (by decide)⟩

/-- C6 fails as stated: the raw internal fault text does appear in the
result returned to the chat surface.  On a fresh session, an LLM failure
with exception text "boom" yields `success = false` and the generic
apology in `response`, but the result's `error` field carries the raw
text "boom" verbatim (and the bundled CLI/web adapters print that field). -/
theorem C6_counterexample :
    (chat 1000 appendSummarizer boomLLM (initState 0) (chars "hello")).1.success
      = false
    ∧ (chat 1000 appendSummarizer boomLLM (initState 0) (chars "hello")).1.response
      = internalErrorResponse
    ∧ (chat 1000 appendSummarizer boomLLM (initState 0) (chars "hello")).1.error
      = some (chars "boom") := by
  decide

/-- C6 as amended: every LLM failure during `chat` is caught at the
orchestrator boundary and mapped to `success = false` with the fixed
generic apology as the response — no raw fault propagates — but the raw
exception text is placed in the result's `error` field, and the state
keeps the already-appended human turn. -/
theorem C6_internal_failure_caught (MAX : Nat) (z : Str → Str → Str)
    (llm : LLM) (s : MemoryState) (u e : Str)
    (hv : validate_input MAX u = true)
    (he : llm (windowView (add_message MAX s u true).2) u = Except.error e) :
    (chat MAX z llm s u).1.success = false
    ∧ (chat MAX z llm s u).1.response = internalErrorResponse
    ∧ (chat MAX z llm s u).1.error = some e
    ∧ (chat MAX z llm s u).2 = (add_message MAX s u true).2 := by
  have hu : u.length ≤ MAX := validate_input_true_length MAX u hv
  have hadd := add_message_ok MAX s u true hu
  rw [hadd] at he
  simp only at he
  unfold chat
  simp only [hv, Bool.not_true, Bool.false_eq_true, if_false, hadd, he]
  simp [hadd]

/-- C6 witness: the always-failing LLM oracle on a valid input. -/
theorem C6_internal_failure_caught_witness :
    validate_input 1000 (chars "hello") = true
    ∧ boomLLM (windowView (add_message 1000 (initState 0) (chars "hello") true).2)
        (chars "hello") = Except.error (chars "boom")
    ∧ ((chat 1000 appendSummarizer boomLLM (initState 0) (chars "hello")).1.success
         = false
       ∧ (chat 1000 appendSummarizer boomLLM (initState 0)
            (chars "hello")).1.response = internalErrorResponse
       ∧ (chat 1000 appendSummarizer boomLLM (initState 0) (chars "hello")).1.error
         = some (chars "boom")
       ∧ (chat 1000 appendSummarizer boomLLM (initState 0) (chars "hello")).2 =
           (add_message 1000 (initState 0) (chars "hello") true).2) :=
  ⟨by decide, rfl,
   C6_internal_failure_caught 1000 appendSummarizer boomLLM (initState 0)
     (chars "hello") (chars "boom") (by decide) rfl⟩

/-- C7: the conversation summary is built only from human-authored turns —
two states agreeing on their human contents, their summary buffer and the
emptiness of their histories get the same digest, whatever the assistant
turns are — and an empty history yields the fixed placeholder text. -/
theorem C7_summary_humans_only (z : Str → Str → Str) (s t : MemoryState)
    (hh : humanContents s = humanContents t)
    (hb : s.summaryBuffer = t.summaryBuffer)
    (he : s.messages = [] ↔ t.messages = []) :
    (get_conversation_summary z s).1 = (get_conversation_summary z t).1
    ∧ (s.messages = [] → (get_conversation_summary z s).1 = emptyHistoryText) := by
  have hempty : ∀ (x : MemoryState), x.messages = [] →
      (get_conversation_summary z x).1 = emptyHistoryText := by
    intro x hx
    unfold get_conversation_summary
    simp [hx]
  refine ⟨?_, hempty s⟩
  by_cases hs : s.messages = []
  · rw [hempty s hs, hempty t (he.mp hs)]
  · have ht : t.messages ≠ [] := fun hc => hs (he.mpr hc)
    rw [summary_digest z s hs, summary_digest z t ht, hh, hb]

/-- Session state holding one human turn and one assistant turn with
content "x". -/
def pairStateX : MemoryState :=
  { messages := [{ role := Role.human, content := chars "a" },
                 { role := Role.ai, content := chars "x" }]
    summaryMessages := []
    summaryBuffer := []
    metadata := { start_time := 0, message_count := 2, total_tokens := 2 } }

/-- Session state like `pairStateX` but with assistant content "yyyy". -/
def pairStateY : MemoryState :=
  { messages := [{ role := Role.human, content := chars "a" },
                 { role := Role.ai, content := chars "yyyy" }]
    summaryMessages := []
    summaryBuffer := []
    metadata := { start_time := 0, message_count := 2, total_tokens := 2 } }

/-- C7 witness: changing only the assistant turn leaves the digest
untouched, and a fresh session summarizes to the placeholder. -/
theorem C7_summary_humans_only_witness :
    humanContents pairStateX = humanContents pairStateY
    ∧ pairStateX.summaryBuffer = pairStateY.summaryBuffer
    ∧ (pairStateX.messages = [] ↔ pairStateY.messages = [])
    ∧ (get_conversation_summary appendSummarizer pairStateX).1 =
        (get_conversation_summary appendSummarizer pairStateY).1
    ∧ (get_conversation_summary appendSummarizer (initState 0)).1 =
        emptyHistoryText :=
  ⟨by decide, rfl, by decide,
   (C7_summary_humans_only appendSummarizer pairStateX pairStateY
      (by decide) rfl (by decide)).1,
   (C7_summary_humans_only appendSummarizer (initState 0) (initState 0)
      rfl rfl Iff.rfl).2 rfl⟩

/-- C8 fails as stated: two consecutive summary requests with no
intervening mutation do not yield the same digest.  After one accepted
human message "hi", with the concatenating summarizer, the first request
returns "hi" but the second returns "hihi", because each request re-folds
every human turn into the persistent summary memory, which is never reset
between requests. -/
theorem C8_counterexample :
    (get_conversation_summary appendSummarizer chatOnceState).2.messages =
      chatOnceState.messages
    ∧ (get_conversation_summary appendSummarizer chatOnceState).1 = chars "hi"
    ∧ (get_conversation_summary appendSummarizer
        (get_conversation_summary appendSummarizer chatOnceState).2).1 =
        chars "hihi"
    ∧ (get_conversation_summary appendSummarizer
        (get_conversation_summary appendSummarizer chatOnceState).2).1 ≠
        (get_conversation_summary appendSummarizer chatOnceState).1 := by
  decide

/-- C8 as amended: each summary request recomputes the digest by folding
exactly the human turns currently stored into the persistent summary
buffer; the stored messages are untouched, and a second request with no
intervening mutation folds the same human turns again on top of the first
digest (duplicate accumulation) instead of returning the same digest. -/
theorem C8_summary_refold_accumulates (z : Str → Str → Str)
    (s : MemoryState) (h : s.messages ≠ []) :
    (get_conversation_summary z s).2.messages = s.messages
    ∧ (get_conversation_summary z s).1 =
        (humanContents s).foldl z s.summaryBuffer
    ∧ (get_conversation_summary z (get_conversation_summary z s).2).1 =
        (humanContents s).foldl z (get_conversation_summary z s).1 := by
  have hm := summary_messages z s
  have h1 : (get_conversation_summary z s).2.messages ≠ [] := by
    rw [hm]; exact h
  have hhc : humanContents (get_conversation_summary z s).2 = humanContents s := by
    unfold humanContents
    rw [hm]
  refine ⟨hm, summary_digest z s h, ?_⟩
  rw [summary_digest z _ h1, hhc, summary_buffer_after z s h,
    summary_digest z s h]

/-- C8 witness: the one-message session with the concatenating summarizer. -/
theorem C8_summary_refold_accumulates_witness :
    chatOnceState.messages ≠ []
    ∧ ((get_conversation_summary appendSummarizer chatOnceState).2.messages =
        chatOnceState.messages
       ∧ (get_conversation_summary appendSummarizer chatOnceState).1 =
           (humanContents chatOnceState).foldl appendSummarizer
             chatOnceState.summaryBuffer
       ∧ (get_conversation_summary appendSummarizer
            (get_conversation_summary appendSummarizer chatOnceState).2).1 =
           (humanContents chatOnceState).foldl appendSummarizer
             (get_conversation_summary appendSummarizer chatOnceState).1) :=
  ⟨by decide,
   C8_summary_refold_accumulates appendSummarizer chatOnceState (by decide)⟩

/-- C9 fails as stated: when the assistant reply exceeds the maximum the
retained sequence does not gain just the human turn.  On a fresh session,
a chat on "a" whose reply has 1001 characters returns `success = true`,
but three messages were stored — the sanitized human turn plus the
chain's raw human and raw overlong assistant write-back, the overlong
reply itself included — not one. -/
theorem C9_counterexample :
    longReplyRun.1.success = true
    ∧ longReplyRun.2.messages =
        [{ role := Role.human, content := chars "a" },
         { role := Role.human, content := chars "a" },
         { role := Role.ai, content := longReply }]
    ∧ longReplyRun.2.messages.length ≠ 1 := by
  decide

/-- C9 as amended: when a valid input draws an assistant reply longer
than the maximum, the manager-side assistant append fails and its failure
is ignored — `chat` still reports `success = true` and returns the reply
— but the store gains three messages rather than one or a pair: the
sanitized human turn plus the chain's raw human and raw (overlong,
unsanitized) assistant write-back; `message_count` grows by one instead
of two. -/
theorem C9_long_reply_raw_writeback (MAX : Nat) (z : Str → Str → Str)
    (llm : LLM) (s : MemoryState) (u r : Str)
    (hv : validate_input MAX u = true)
    (hr : llm (windowView (add_message MAX s u true).2) u = Except.ok r)
    (hlen : MAX < r.length) :
    (chat MAX z llm s u).1.success = true
    ∧ (chat MAX z llm s u).1.response = r
    ∧ (chat MAX z llm s u).2.messages =
        s.messages ++ [{ role := Role.human, content := pyStrip u },
                       { role := Role.human, content := u },
                       { role := Role.ai, content := r }]
    ∧ (chat MAX z llm s u).2.metadata.message_count =
        s.metadata.message_count + 1 := by
  have hu : u.length ≤ MAX := validate_input_true_length MAX u hv
  have hadd := add_message_ok MAX s u true hu
  rw [hadd] at hr
  simp only at hr
  have hfail := fun st => add_message_fail MAX st r false hlen
  unfold chat
  simp only [hv, Bool.not_true, Bool.false_eq_true, if_false, hadd, hr,
    chainWriteBack, hfail]
  simp [summary_messages, summary_metadata, List.append_assoc]

/-- C9 witness: the oracle whose reply to "a" has 1001 characters, on a
fresh session with the default maximum of 1000. -/
theorem C9_long_reply_raw_writeback_witness :
    validate_input 1000 (chars "a") = true
    ∧ verboseLLM (windowView (add_message 1000 (initState 0) (chars "a") true).2)
        (chars "a") = Except.ok longReply
    ∧ 1000 < longReply.length
    ∧ ((chat 1000 appendSummarizer verboseLLM (initState 0) (chars "a")).1.success
         = true
       ∧ (chat 1000 appendSummarizer verboseLLM (initState 0)
            (chars "a")).1.response = longReply
       ∧ (chat 1000 appendSummarizer verboseLLM (initState 0) (chars "a")).2.messages
         = (initState 0).messages ++
             [{ role := Role.human, content := pyStrip (chars "a") },
              { role := Role.human, content := chars "a" },
              { role := Role.ai, content := longReply }]
       ∧ (chat 1000 appendSummarizer verboseLLM (initState 0)
            (chars "a")).2.metadata.message_count =
           (initState 0).metadata.message_count + 1) :=
  ⟨by decide, rfl, by decide,
   C9_long_reply_raw_writeback 1000 appendSummarizer verboseLLM (initState 0)
     (chars "a") longReply (by decide) rfl (by decide)⟩

/-- C1 fails as stated: after six successful chats on a fresh session the
stats report twenty-four messages — the full stored history including the
chain's raw write-back duplicates, not the post-eviction window of at
most `window_size = 10`, and not the lifetime `message_count` (which is
twelve) either; `total_messages` is not `min(2k, window_size)` and does
exceed the reported window size. -/
theorem C1_counterexample :
    (get_memory_stats sixChatState).total_messages = 24
    ∧ (get_memory_stats sixChatState).window_size = 10
    ∧ sixChatState.metadata.message_count = 12
    ∧ ¬ (get_memory_stats sixChatState).total_messages ≤
        (get_memory_stats sixChatState).window_size
    ∧ (get_memory_stats sixChatState).total_messages ≠
        min (2 * 6) (get_memory_stats sixChatState).window_size
    ∧ (get_memory_stats sixChatState).total_messages ≠
        sixChatState.metadata.message_count := by
  decide

/-- C1 as amended: after `k` successful chats on a fresh session (inputs
valid, replies within the limit) nothing is ever evicted from the store
and each chat stores four messages — the manager's sanitized human and
assistant turns plus the chain's raw write-back pair — so
`stats().total_messages` equals `4k`, unbounded, while the lifetime
`message_count` is `2k` (so the two disagree on every nonempty run);
only the read window handed to the LLM is bounded: it is the suffix of
the most recent `min(4k, 2*10)` stored messages in insertion order. -/
theorem C1_window_and_stats (MAX : Nat) (z : Str → Str → Str) (llm : LLM)
    (t0 : Nat) (inputs : List Str)
    (hv : ∀ u ∈ inputs, validate_input MAX u = true)
    (hr : ∀ w u, ∃ r, llm w u = Except.ok r ∧ r.length ≤ MAX) :
    (chats MAX z llm (initState t0) inputs).messages.length = 4 * inputs.length
    ∧ (get_memory_stats (chats MAX z llm (initState t0) inputs)).total_messages
        = 4 * inputs.length
    ∧ (chats MAX z llm (initState t0) inputs).metadata.message_count
        = 2 * inputs.length
    ∧ (inputs ≠ [] →
        (get_memory_stats (chats MAX z llm (initState t0) inputs)).total_messages
          ≠ (chats MAX z llm (initState t0) inputs).metadata.message_count)
    ∧ (windowView (chats MAX z llm (initState t0) inputs)).length
        = min (4 * inputs.length) (2 * WINDOW_K)
    ∧ windowView (chats MAX z llm (initState t0) inputs)
        <:+ (chats MAX z llm (initState t0) inputs).messages := by
  have hg := chats_grow MAX z llm inputs (initState t0) hv hr
  have h1 : (chats MAX z llm (initState t0) inputs).messages.length =
      4 * inputs.length := by
    simpa [initState] using hg.1
  have h2 : (chats MAX z llm (initState t0) inputs).metadata.message_count =
      2 * inputs.length := by
    simpa [initState] using hg.2
  refine ⟨h1, ?_, h2, ?_, ?_, windowView_suffix _⟩
  · simpa [get_memory_stats] using h1
  · intro hne
    have hpos : 0 < inputs.length := List.length_pos.mpr hne
    show (chats MAX z llm (initState t0) inputs).messages.length ≠
      (chats MAX z llm (initState t0) inputs).metadata.message_count
    rw [h1, h2]
    omega
  · rw [windowView_length, h1]

/-- C1 witness: six chats with the always-"ok" oracle store twenty-four
messages, all reported by the stats, against a lifetime count of twelve
and a twenty-message read window. -/
theorem C1_window_and_stats_witness :
    (chats 1000 appendSummarizer okLLM (initState 0)
        (List.replicate 6 (chars "hi"))).messages.length = 24
    ∧ (get_memory_stats (chats 1000 appendSummarizer okLLM (initState 0)
        (List.replicate 6 (chars "hi")))).total_messages = 24
    ∧ (chats 1000 appendSummarizer okLLM (initState 0)
        (List.replicate 6 (chars "hi"))).metadata.message_count = 12
    ∧ (windowView (chats 1000 appendSummarizer okLLM (initState 0)
        (List.replicate 6 (chars "hi")))).length = 20 := by
  have h := C1_window_and_stats 1000 appendSummarizer okLLM 0
    (List.replicate 6 (chars "hi")) (by decide)
    (fun w u => ⟨chars "ok", rfl, by decide⟩)
  refine ⟨?_, ?_, ?_, ?_⟩
  · simpa using h.1
  · simpa using h.2.1
  · simpa using h.2.2.1
  · have h5 := h.2.2.2.2.1
    have hlen : (List.replicate 6 (chars "hi")).length = 6 := rfl
    have hwk : 2 * WINDOW_K = 20 := rfl
    rw [hlen, hwk] at h5
    rw [h5]
    decide

/-- C5 fails as stated: even a single fully successful chat breaks the
alternation.  One chat "hi" on a fresh session stores four messages —
the sanitized human turn, the chain's raw human and raw assistant
write-back, and the sanitized assistant turn — so export returns exactly
these four entries tagged human, human, ai, ai, which do not alternate. -/
theorem C5_counterexample :
    (export_memory appendSummarizer oneChatState 99).1.messages.map
        (fun em => em.type) =
      [chars "human", chars "human", chars "ai", chars "ai"]
    ∧ (export_memory appendSummarizer oneChatState 99).1.messages.length =
        oneChatState.messages.length
    ∧ rolesAlternate oneChatState.messages = false := by
  decide

/-- C5 as amended: export returns exactly one entry per stored message,
in insertion order, every entry carrying the export-time timestamp rather
than the turn's original time; but when the run's chats all succeeded
with replies within the length limit the stored roles form
human,human,ai,ai quadruples (sanitized human, the chain's raw
write-back pair, sanitized assistant), so on every nonempty run the
exported roles do not alternate human/assistant. -/
theorem C5_export_shape (MAX : Nat) (z : Str → Str → Str) (llm : LLM)
    (t0 now : Nat) (inputs : List Str)
    (hv : ∀ u ∈ inputs, validate_input MAX u = true)
    (hr : ∀ w u, ∃ r, llm w u = Except.ok r ∧ r.length ≤ MAX) :
    (export_memory z (chats MAX z llm (initState t0) inputs) now).1.messages.length
      = (chats MAX z llm (initState t0) inputs).messages.length
    ∧ isQuads (chats MAX z llm (initState t0) inputs).messages = true
    ∧ (inputs ≠ [] →
        rolesAlternate (chats MAX z llm (initState t0) inputs).messages = false)
    ∧ (export_memory z (chats MAX z llm (initState t0) inputs) now).1.messages
      = (chats MAX z llm (initState t0) inputs).messages.map (fun m =>
          { type := if m.role == Role.human then chars "human" else chars "ai"
            content := m.content
            timestamp := now })
    ∧ ∀ em ∈ (export_memory z (chats MAX z llm (initState t0) inputs) now).1.messages,
        em.timestamp = now := by
  have hq := chats_quads MAX z llm inputs (initState t0) hv hr rfl
  refine ⟨?_, hq, ?_, rfl, ?_⟩
  · simp [export_memory]
  · intro hne
    have hg := (chats_grow MAX z llm inputs (initState t0) hv hr).1
    have hpos : 0 < inputs.length := List.length_pos.mpr hne
    have hmpos : 0 < (chats MAX z llm (initState t0) inputs).messages.length := by
      rw [hg]
      have h0 : (initState t0).messages.length = 0 := rfl
      omega
    exact rolesAlternate_of_isQuads_ne _ hq (List.ne_nil_of_length_pos hmpos)
  · intro em hem
    simp only [export_memory, List.mem_map] at hem
    obtain ⟨m, _, rfl⟩ := hem
    rfl

/-- C5 witness: one successful chat exports four entries, one per stored
message, whose roles do not alternate. -/
theorem C5_export_shape_witness :
    isQuads (chats 1000 appendSummarizer okLLM (initState 0)
        [chars "hi"]).messages = true
    ∧ rolesAlternate (chats 1000 appendSummarizer okLLM (initState 0)
        [chars "hi"]).messages = false
    ∧ (export_memory appendSummarizer (chats 1000 appendSummarizer okLLM
        (initState 0) [chars "hi"]) 7).1.messages.length =
        (chats 1000 appendSummarizer okLLM (initState 0) [chars "hi"]).messages.length := by
  have h := C5_export_shape 1000 appendSummarizer okLLM 0 7 [chars "hi"]
    (by decide) (fun w u => ⟨chars "ok", rfl, by decide⟩)
  exact ⟨h.2.1, h.2.2.1 (by decide), h.1⟩

end Chatbot

